import Mathlib

/-!
# Verification of the blackroad-metaverse time/frame contract module

Shallow embedding of `src/truth-contracts.js` and of the celestial-mechanics
transform chain (`IAUTransform.ecefToGCRF` and helpers).

Modelling conventions:
* JavaScript numbers are modelled as exact rationals (`ℚ`); IEEE-754 rounding
  is idealized away.  JavaScript `Date` values are modelled by their
  millisecond timestamp (`valueOf()`), again as a rational.
* `Math.sin` / `Math.cos` are abstracted as parameters `sinq cosq : ℚ → ℚ`;
  the properties proved here do not depend on their values.  `Math.PI` is the
  exact rational value of the IEEE double closest to π.
* Thrown `Error`s are modelled with `Except String`; `console.warn` output is
  modelled as an explicit list of warning strings in the result.
* `THREE.Matrix4` is a 4×4 rational matrix; `multiply` is post-multiplication
  (`a.multiply(b)` sets `a := a * b`) and `applyMatrix4` is the standard
  homogeneous application (divide by the resulting `w` component), following
  the three.js documentation.
-/

namespace Blackroad

/-- The `TIME_SCALES` enumeration of `truth-contracts.js` as a closed type. -/
inductive TimeScale
  | UTC
  | TAI
  | TT
  | TDB
  | UT1
  | GPS
deriving DecidableEq

/-- The string value each `TIME_SCALES` member carries in the source. -/
def TimeScale.str : TimeScale → String
  | .UTC => "UTC"
  | .TAI => "TAI"
  | .TT => "TT"
  | .TDB => "TDB"
  | .UT1 => "UT1"
  | .GPS => "GPS"

/-- `Object.values(TIME_SCALES)` from the source. -/
def TIME_SCALES : List String := ["UTC", "TAI", "TT", "TDB", "UT1", "GPS"]

/-- `Object.values(FRAMES)` from the source. -/
def FRAMES : List String :=
  ["ICRF_BARYCENTRIC", "HELIOCENTRIC_ECLIPTIC", "ECI", "ECEF", "TOPOCENTRIC", "MOON_CENTERED"]

/-- `Object.values(HEIGHT_DATUMS)` from the source. -/
def HEIGHT_DATUMS : List String := ["ELLIPSOID", "GEOID", "MSL"]

/-- The `LEAP_SECONDS` table: `(date.valueOf() in ms, leapSeconds)` pairs,
with the UTC-midnight millisecond timestamps of the ISO dates in the source. -/
def LEAP_SECONDS : List (ℚ × ℚ) :=
  [(63072000000, 10),    -- 1972-01-01
   (78796800000, 11),    -- 1972-07-01
   (94694400000, 12),    -- 1973-01-01
   (126230400000, 13),   -- 1974-01-01
   (157766400000, 14),   -- 1975-01-01
   (189302400000, 15),   -- 1976-01-01
   (220924800000, 16),   -- 1977-01-01
   (252460800000, 17),   -- 1978-01-01
   (283996800000, 18),   -- 1979-01-01
   (315532800000, 19),   -- 1980-01-01
   (362793600000, 20),   -- 1981-07-01
   (394329600000, 21),   -- 1982-07-01
   (425865600000, 22),   -- 1983-07-01
   (489024000000, 23),   -- 1985-07-01
   (567993600000, 24),   -- 1988-01-01
   (631152000000, 25),   -- 1990-01-01
   (662688000000, 26),   -- 1991-01-01
   (709948800000, 27),   -- 1992-07-01
   (741484800000, 28),   -- 1993-07-01
   (773020800000, 29),   -- 1994-07-01
   (820454400000, 30),   -- 1996-01-01
   (867715200000, 31),   -- 1997-07-01
   (915148800000, 32),   -- 1999-01-01
   (1136073600000, 33),  -- 2006-01-01
   (1230768000000, 34),  -- 2009-01-01
   (1341100800000, 35),  -- 2012-07-01
   (1435708800000, 36),  -- 2015-07-01
   (1483228800000, 37)]  -- 2017-01-01

/-- `EOP_DATA.dut1` (seconds). -/
def EOP_dut1 : ℚ := -0.1234

/-- `EOP_DATA.xp` (arcseconds). -/
def EOP_xp : ℚ := 0.123456

/-- `EOP_DATA.yp` (arcseconds). -/
def EOP_yp : ℚ := 0.234567

/-- Exact rational value of the IEEE-754 double closest to π (`Math.PI`). -/
def piJS : ℚ := 884279719003555 / 281474976710656

/-- The loop body of `TimeConverter.getLeapSeconds`: scan the table in order,
remembering the last offset whose effective date is `≤ utcDate`, and `break`
at the first later entry. -/
def leapScanGo (utcDate : ℚ) : ℚ → List (ℚ × ℚ) → ℚ
  | acc, [] => acc
  | acc, e :: rest => if e.1 ≤ utcDate then leapScanGo utcDate e.2 rest else acc

/-- `TimeConverter.getLeapSeconds`: linear scan of `LEAP_SECONDS` starting
from the pre-1972 default of 10. -/
def getLeapSeconds (utcDate : ℚ) : ℚ :=
  leapScanGo utcDate 10 LEAP_SECONDS

/-- `TimeConverter.utcToTAI`: `new Date(utcDate.getTime() + leapSeconds * 1000)`. -/
def utcToTAI (utcDate : ℚ) : ℚ :=
  utcDate + getLeapSeconds utcDate * 1000

/-- `TimeConverter.utcToTT`: `new Date(tai.getTime() + 32.184 * 1000)`. -/
def utcToTT (utcDate : ℚ) : ℚ :=
  utcToTAI utcDate + 32.184 * 1000

/-- `TimeConverter.dateToJulianDate`. -/
def dateToJulianDate (date : ℚ) : ℚ :=
  date / 86400000 + 2440587.5

/-- `TimeConverter.utcToTDB`, with `Math.sin` abstracted as `sinq`. -/
def utcToTDB (sinq : ℚ → ℚ) (utcDate : ℚ) : ℚ :=
  let tt := utcToTT utcDate
  let jd := dateToJulianDate tt
  let T := (jd - 2451545.0) / 36525.0
  let g := (357.5277233 + 35999.05034 * T) * piJS / 180
  let deltaT := 0.001658 * sinq g + 0.000014 * sinq (2 * g)
  tt + deltaT * 1000

/-- `TimeConverter.utcToUT1`: `new Date(utcDate.getTime() + dut1 * 1000)`. -/
def utcToUT1 (utcDate : ℚ) : ℚ :=
  utcDate + EOP_dut1 * 1000

/-- `TimeConverter.convert`.  The source first short-circuits equal scales,
then maps TAI/TT inputs back to UTC (all other source scales are left as-is),
then dispatches on the target scale; the `default` arm of the `switch`
(reached exactly for a GPS target) throws `Unsupported time scale`. -/
def convert (sinq : ℚ → ℚ) (timestamp : ℚ) (fromScale toScale : TimeScale) :
    Except String ℚ :=
  if fromScale = toScale then .ok timestamp
  else
    let utc :=
      if fromScale = TimeScale.TAI then
        timestamp - getLeapSeconds timestamp * 1000
      else if fromScale = TimeScale.TT then
        let tai := timestamp - 32.184 * 1000
        tai - getLeapSeconds tai * 1000
      else timestamp
    match toScale with
    | .UTC => .ok utc
    | .TAI => .ok (utcToTAI utc)
    | .TT => .ok (utcToTT utc)
    | .TDB => .ok (utcToTDB sinq utc)
    | .UT1 => .ok (utcToUT1 utc)
    | .GPS => .error ("Unsupported time scale: " ++ TimeScale.GPS.str)

/-- The `config` object passed to the `TruthContract` constructor.
`heightDatum` and `tolerance` may be absent (`undefined`). -/
structure ContractConfig where
  frame : String
  timeScale : String
  heightDatum : Option String
  tolerance : Option (List (String × ℚ))

/-- A successfully constructed `TruthContract`. -/
structure TruthContract where
  frame : String
  timeScale : String
  heightDatum : Option String
  tolerance : List (String × ℚ)
deriving DecidableEq

/-- JavaScript `s || null` on an optional string: an absent value and the
falsy empty string both collapse to `null`. -/
def jsStringOrNull : Option String → Option String
  | none => none
  | some s => if s = "" then none else some s

/-- The `TruthContract` constructor: field assignment with `|| null` / `|| {}`
defaults, followed by the three membership validations, each throwing on
failure. -/
def TruthContract.make (config : ContractConfig) : Except String TruthContract :=
  let frame := config.frame
  let timeScale := config.timeScale
  let heightDatum := jsStringOrNull config.heightDatum
  let tolerance := config.tolerance.getD []
  if !FRAMES.contains frame then
    .error ("Invalid frame: " ++ frame)
  else if !TIME_SCALES.contains timeScale then
    .error ("Invalid time scale: " ++ timeScale)
  else if heightDatum.any (fun h => !HEIGHT_DATUMS.contains h) then
    .error ("Invalid height datum: " ++ heightDatum.getD "")
  else
    .ok ⟨frame, timeScale, heightDatum, tolerance⟩

/-- The `rotating` frame list inside
`FrameTransformer.validateFrameCompatibility`.  (The source also declares an
`inertial` list, but the emitted check only consults `rotating`.) -/
def rotatingFrames : List String := ["ECEF", "TOPOCENTRIC"]

/-- `FrameTransformer.validateFrameCompatibility`: emits a `console.warn`
(modelled as a returned warning list) when exactly one of the two frames is
rotating; it never throws. -/
def validateFrameCompatibility (frame1 frame2 operation : String) : List String :=
  let isFrame1Rotating := rotatingFrames.contains frame1
  let isFrame2Rotating := rotatingFrames.contains frame2
  if isFrame1Rotating ≠ isFrame2Rotating then
    ["Frame mismatch: " ++ operation ++ " between " ++ frame1 ++ " and " ++ frame2 ++
      " requires rotation"]
  else []

/-- A value handed to `ContractedVerifier.verify`; only its `frame` and
`timeScale` tags are consulted by the source. -/
structure TaggedValue where
  frame : String
  timeScale : String

/-- `ContractedVerifier.compareWithTolerance`: a placeholder that always
returns `true` in the source. -/
def compareWithTolerance (simulated reference : TaggedValue)
    (tolerance : List (String × ℚ)) : Bool :=
  true

/-- Outcome of a successful `verify` call: the `console.warn` lines emitted
and the value returned. -/
structure VerifyResult where
  warnings : List String
  result : Bool
deriving DecidableEq

/-- `ContractedVerifier.verify`, with the verifier's contract `Map` modelled
as an association list.  A missing contract throws; otherwise the frame and
time-scale compatibility checks only warn, and the tolerance comparison result
is returned. -/
def ContractedVerifier.verify (contracts : List (String × TruthContract))
    (testId : String) (simulated reference : TaggedValue) :
    Except String VerifyResult :=
  match contracts.lookup testId with
  | none => .error ("No contract registered for test: " ++ testId)
  | some contract =>
    let frameWarnings := validateFrameCompatibility simulated.frame reference.frame testId
    let timeWarnings :=
      if simulated.timeScale ≠ reference.timeScale then
        ["Time scale mismatch: " ++ simulated.timeScale ++ " vs " ++ reference.timeScale]
      else []
    .ok ⟨frameWarnings ++ timeWarnings,
         compareWithTolerance simulated reference contract.tolerance⟩

/-- A `THREE.Vector3` with rational components. -/
structure Vec3 where
  x : ℚ
  y : ℚ
  z : ℚ

/-- A `THREE.Matrix4`, identified by its 16 logical (row-major) entries, the
order in which `Matrix4.set` receives them. -/
structure Mat4 where
  m00 : ℚ
  m01 : ℚ
  m02 : ℚ
  m03 : ℚ
  m10 : ℚ
  m11 : ℚ
  m12 : ℚ
  m13 : ℚ
  m20 : ℚ
  m21 : ℚ
  m22 : ℚ
  m23 : ℚ
  m30 : ℚ
  m31 : ℚ
  m32 : ℚ
  m33 : ℚ

/-- `new THREE.Matrix4()`: the identity matrix. -/
def Mat4.idMat : Mat4 :=
  ⟨1, 0, 0, 0, 0, 1, 0, 0, 0, 0, 1, 0, 0, 0, 0, 1⟩

/-- `THREE.Matrix4.multiply`: `a.multiply(b)` post-multiplies, `a := a * b`. -/
def Mat4.mul (a b : Mat4) : Mat4 where
  m00 := a.m00 * b.m00 + a.m01 * b.m10 + a.m02 * b.m20 + a.m03 * b.m30
  m01 := a.m00 * b.m01 + a.m01 * b.m11 + a.m02 * b.m21 + a.m03 * b.m31
  m02 := a.m00 * b.m02 + a.m01 * b.m12 + a.m02 * b.m22 + a.m03 * b.m32
  m03 := a.m00 * b.m03 + a.m01 * b.m13 + a.m02 * b.m23 + a.m03 * b.m33
  m10 := a.m10 * b.m00 + a.m11 * b.m10 + a.m12 * b.m20 + a.m13 * b.m30
  m11 := a.m10 * b.m01 + a.m11 * b.m11 + a.m12 * b.m21 + a.m13 * b.m31
  m12 := a.m10 * b.m02 + a.m11 * b.m12 + a.m12 * b.m22 + a.m13 * b.m32
  m13 := a.m10 * b.m03 + a.m11 * b.m13 + a.m12 * b.m23 + a.m13 * b.m33
  m20 := a.m20 * b.m00 + a.m21 * b.m10 + a.m22 * b.m20 + a.m23 * b.m30
  m21 := a.m20 * b.m01 + a.m21 * b.m11 + a.m22 * b.m21 + a.m23 * b.m31
  m22 := a.m20 * b.m02 + a.m21 * b.m12 + a.m22 * b.m22 + a.m23 * b.m32
  m23 := a.m20 * b.m03 + a.m21 * b.m13 + a.m22 * b.m23 + a.m23 * b.m33
  m30 := a.m30 * b.m00 + a.m31 * b.m10 + a.m32 * b.m20 + a.m33 * b.m30
  m31 := a.m30 * b.m01 + a.m31 * b.m11 + a.m32 * b.m21 + a.m33 * b.m31
  m32 := a.m30 * b.m02 + a.m31 * b.m12 + a.m32 * b.m22 + a.m33 * b.m32
  m33 := a.m30 * b.m03 + a.m31 * b.m13 + a.m32 * b.m23 + a.m33 * b.m33

/-- `THREE.Vector3.applyMatrix4`: homogeneous application, scaling by the
inverse of the resulting `w` component. -/
def applyMatrix4 (m : Mat4) (v : Vec3) : Vec3 :=
  let w := 1 / (m.m30 * v.x + m.m31 * v.y + m.m32 * v.z + m.m33)
  ⟨(m.m00 * v.x + m.m01 * v.y + m.m02 * v.z + m.m03) * w,
   (m.m10 * v.x + m.m11 * v.y + m.m12 * v.z + m.m13) * w,
   (m.m20 * v.x + m.m21 * v.y + m.m22 * v.z + m.m23) * w⟩

/-- `THREE.Matrix4.makeRotationZ`. -/
def makeRotationZ (sinq cosq : ℚ → ℚ) (theta : ℚ) : Mat4 :=
  ⟨cosq theta, -(sinq theta), 0, 0,
   sinq theta, cosq theta, 0, 0,
   0, 0, 1, 0,
   0, 0, 0, 1⟩

/-- `PrecessionNutation.buildPrecessionMatrix`. -/
def buildPrecessionMatrix (sinq cosq : ℚ → ℚ) (eps0 psi omega chi : ℚ) : Mat4 :=
  let c1 := cosq (-eps0)
  let s1 := sinq (-eps0)
  let c2 := cosq psi
  let s2 := sinq psi
  let c3 := cosq omega
  let s3 := sinq omega
  let c4 := cosq (-chi)
  let s4 := sinq (-chi)
  ⟨c2 * c4, -(c2 * s4), s2, 0,
   c1 * s4 + s1 * s2 * c4, c1 * c4 - s1 * s2 * s4, -(s1 * c2), 0,
   s1 * s4 - c1 * s2 * c4, s1 * c4 + c1 * s2 * s4, c1 * c2, 0,
   0, 0, 0, 1⟩

/-- `PrecessionNutation.precessionMatrix` (IAU 2006 truncated). -/
def precessionMatrix (sinq cosq : ℚ → ℚ) (jdTT : ℚ) : Mat4 :=
  let T := (jdTT - 2451545.0) / 36525.0
  let eps0 := (84381.406 - 46.836769 * T - 0.0001831 * T * T
              + 0.00200340 * T * T * T) / 3600 * piJS / 180
  let psiA := (5038.481507 * T - 1.0790069 * T * T
              - 0.00114045 * T * T * T) / 3600 * piJS / 180
  let omegaA := eps0 + (-0.025754 * T + 0.0512623 * T * T
               - 0.00772503 * T * T * T) / 3600 * piJS / 180
  let chiA := (10.556403 * T - 2.3814292 * T * T
              - 0.00121197 * T * T * T) / 3600 * piJS / 180
  buildPrecessionMatrix sinq cosq eps0 psiA omegaA chiA

/-- `PrecessionNutation.buildNutationMatrix`. -/
def buildNutationMatrix (sinq cosq : ℚ → ℚ) (dpsi deps eps0 : ℚ) : Mat4 :=
  let eps := eps0 + deps
  let c1 := cosq (-eps0)
  let s1 := sinq (-eps0)
  let c2 := cosq dpsi
  let s2 := sinq dpsi
  let c3 := cosq eps
  let s3 := sinq eps
  ⟨c2, -(s2 * c1), -(s2 * s1), 0,
   s2 * c3, c2 * c3 * c1 - s3 * s1, c2 * c3 * s1 + s3 * c1, 0,
   s2 * s3, c2 * s3 * c1 + c3 * s1, c2 * s3 * s1 - c3 * c1, 0,
   0, 0, 0, 1⟩

/-- One row of the truncated `nutTerms` table: the five fundamental-argument
multipliers and the four series coefficients. -/
structure NutTerm where
  kl : ℚ
  klp : ℚ
  kf : ℚ
  kd : ℚ
  kom : ℚ
  spsi : ℚ
  tpsi : ℚ
  ceps : ℚ
  teps : ℚ

/-- The 10-term `nutTerms` table of `PrecessionNutation.nutationMatrix`. -/
def nutTerms : List NutTerm :=
  [⟨0, 0, 0, 0, 1, -171996, -174.2, 92025, 8.9⟩,
   ⟨-2, 0, 0, 2, 2, -13187, -1.6, 5736, -3.1⟩,
   ⟨0, 0, 0, 2, 2, -2274, -0.2, 977, -0.5⟩,
   ⟨0, 0, 0, 0, 2, 2062, 0.2, -895, 0.5⟩,
   ⟨0, 1, 0, 0, 0, 1426, -3.4, 54, -0.1⟩,
   ⟨0, 0, 1, 0, 0, 712, 0.1, -7, 0.0⟩,
   ⟨-2, 1, 0, 2, 2, -517, 1.2, 224, -0.6⟩,
   ⟨0, 0, 0, 2, 1, -386, -0.4, 200, 0.0⟩,
   ⟨0, 0, 1, 2, 2, -301, 0.0, 129, -0.1⟩,
   ⟨-2, -1, 0, 2, 2, 217, -0.5, -95, 0.3⟩]

/-- `PrecessionNutation.nutationMatrix` (simplified IAU 2000B, 10 terms). -/
def nutationMatrix (sinq cosq : ℚ → ℚ) (jdTT : ℚ) : Mat4 :=
  let T := (jdTT - 2451545.0) / 36525.0
  let l := (134.96340251 + 1717915923.2178 * T) * piJS / 180
  let lPrime := (357.52910918 + 129596581.0481 * T) * piJS / 180
  let f := (93.27209062 + 1739527262.8478 * T) * piJS / 180
  let d := (297.85019547 + 1602961601.2090 * T) * piJS / 180
  let omega := (125.04455501 - 6962890.5431 * T) * piJS / 180
  let sums := nutTerms.foldl (fun acc term =>
    let arg := term.kl * l + term.klp * lPrime + term.kf * f
             + term.kd * d + term.kom * omega
    (acc.1 + (term.spsi + term.tpsi * T) * sinq arg,
     acc.2 + (term.ceps + term.teps * T) * cosq arg)) ((0 : ℚ), (0 : ℚ))
  let dpsi := sums.1 / 36000000 * piJS / 180
  let deps := sums.2 / 36000000 * piJS / 180
  let eps0 := (84381.448 - 46.8150 * T) / 3600 * piJS / 180
  buildNutationMatrix sinq cosq dpsi deps eps0

/-- JavaScript truncation toward zero (the integer part used by `%`). -/
def jsTrunc (q : ℚ) : ℤ :=
  if 0 ≤ q then ⌊q⌋ else ⌈q⌉

/-- The JavaScript remainder operator `%` on numbers (sign of the dividend). -/
def jsMod (a b : ℚ) : ℚ :=
  a - b * jsTrunc (a / b)

/-- `EarthRotation.earthRotationAngle` (IAU 2000 ERA). -/
def earthRotationAngle (jdUT1 : ℚ) : ℚ :=
  let du := jdUT1 - 2451545.0
  let theta0 := 0.7790572732640 + 1.00273781191135448 * du
  let theta1 := jsMod theta0 1.0
  let theta2 := if theta1 < 0 then theta1 + 1.0 else theta1
  theta2 * 2 * piJS

/-- `PolarMotion.polarMotionMatrix` (`xp`, `yp` in arcseconds). -/
def polarMotionMatrix (sinq cosq : ℚ → ℚ) (xp yp : ℚ) : Mat4 :=
  let xpRad := xp / 3600 * piJS / 180
  let ypRad := yp / 3600 * piJS / 180
  let cxp := cosq xpRad
  let sxp := sinq xpRad
  let cyp := cosq ypRad
  let syp := sinq ypRad
  ⟨cyp, 0, -syp, 0,
   sxp * syp, cxp, sxp * cyp, 0,
   cxp * syp, -sxp, cxp * cyp, 0,
   0, 0, 0, 1⟩

/-- The `eopData` argument of `IAUTransform.ecefToGCRF`. -/
structure EOPInput where
  xp : ℚ
  yp : ℚ

/-- `IAUTransform.ecefToGCRF`: build `W`, `R`, `P`, `N`, compose them onto a
fresh identity matrix by successive `multiply` calls, and apply the result to
the input vector.  (The frame/origin/contract tags attached to the returned
object are bookkeeping and are omitted; the value is the transformed vector.) -/
def ecefToGCRF (sinq cosq : ℚ → ℚ) (ecef : Vec3) (utcTime : ℚ)
    (eopData : EOPInput) : Vec3 :=
  let ut1Time := utcToUT1 utcTime
  let ttTime := utcToTT utcTime
  let jdUT1 := dateToJulianDate ut1Time
  let jdTT := dateToJulianDate ttTime
  let w := polarMotionMatrix sinq cosq eopData.xp eopData.yp
  let era := earthRotationAngle jdUT1
  let r := makeRotationZ sinq cosq era
  let p := precessionMatrix sinq cosq jdTT
  let n := nutationMatrix sinq cosq jdTT
  let transform0 := Mat4.idMat
  let transform1 := transform0.mul n
  let transform2 := transform1.mul p
  let transform3 := transform2.mul r
  let transform4 := transform3.mul w
  applyMatrix4 transform4 ecef

/-! ## Leap-second lookup: scan-with-break versus last-matching-entry -/

/-- The leap-second count the table itself assigns to a date `d`: the offset
of the last entry whose effective date is `≤ d`, when one exists. -/
def tableLeapSeconds (d : ℚ) : Option ℚ :=
  ((LEAP_SECONDS.filter (fun e => e.1 ≤ d)).getLast?).map (fun e => e.2)

/-- On a date-sorted table, the scan-with-break of `getLeapSeconds` computes
the offset of the last entry whose date is `≤ d` (or the accumulator if no
entry qualifies). -/
theorem leapScanGo_eq_filter (d : ℚ) (l : List (ℚ × ℚ)) :
    ∀ acc : ℚ, l.Pairwise (fun a b => a.1 ≤ b.1) →
      leapScanGo d acc l =
        ((l.filter (fun e => e.1 ≤ d)).getLast?).elim acc (fun e => e.2) := by
  induction l with
  | nil => intro acc h; simp [leapScanGo]
  | cons e rest ih =>
    intro acc hp
    rw [List.pairwise_cons] at hp
    obtain ⟨hhead, hrest⟩ := hp
    by_cases hc : e.1 ≤ d
    · simp only [leapScanGo]
      rw [if_pos hc, ih e.2 hrest, List.filter_cons_of_pos (by simpa using hc)]
      cases hfr : rest.filter (fun e => e.1 ≤ d) with
      | nil => simp
      | cons f fs =>
        rw [List.getLast?_cons_cons]
        obtain ⟨a, ha⟩ := Option.isSome_iff_exists.mp
          (List.getLast?_isSome.mpr (List.cons_ne_nil f fs))
        rw [ha]
        rfl
    · simp only [leapScanGo]
      rw [if_neg hc, List.filter_cons_of_neg (by simpa using hc)]
      have hnil : rest.filter (fun e => e.1 ≤ d) = [] := by
        rw [List.filter_eq_nil_iff]
        intro a hmem
        simp only [decide_eq_true_eq]
        intro h2
        exact hc (le_trans (hhead a hmem) h2)
      rw [hnil]
      simp

/-- The concrete `LEAP_SECONDS` table is sorted by effective date. -/
theorem LEAP_SECONDS_sorted :
    LEAP_SECONDS.Pairwise (fun a b => a.1 ≤ b.1) := by
  decide

/-- `getLeapSeconds` agrees with the last-matching-entry reading of the
table, with the pre-1972 default of 10. -/
theorem getLeapSeconds_eq_table (d : ℚ) :
    getLeapSeconds d = (tableLeapSeconds d).getD 10 := by
  rw [getLeapSeconds, leapScanGo_eq_filter d LEAP_SECONDS 10 LEAP_SECONDS_sorted,
    tableLeapSeconds]
  cases (LEAP_SECONDS.filter (fun e => e.1 ≤ d)).getLast? <;> simp

/-- **C1.** For every UTC date `d` on or after 1972-01-01 (63072000000 ms on
the Date millisecond timeline), `utcToTAI d - d` equals, in whole seconds,
the leap-second count that the embedded `LEAP_SECONDS` table assigns to `d`
(the offset of the last entry whose effective date is `≤ d`). -/
theorem utcToTAI_offset_eq_table (d : ℚ) (h : 63072000000 ≤ d) :
    ∃ c : ℚ, tableLeapSeconds d = some c ∧ utcToTAI d - d = c * 1000 := by
  have hmem : ((63072000000 : ℚ), (10 : ℚ)) ∈
      LEAP_SECONDS.filter (fun e => e.1 ≤ d) := by
    rw [List.mem_filter]
    exact ⟨by simp [LEAP_SECONDS], by simpa using h⟩
  have hne : LEAP_SECONDS.filter (fun e => e.1 ≤ d) ≠ [] := by
    intro hnil
    rw [hnil] at hmem
    exact List.not_mem_nil _ hmem
  obtain ⟨a, ha⟩ := Option.isSome_iff_exists.mp (List.getLast?_isSome.mpr hne)
  refine ⟨a.2, ?_, ?_⟩
  · rw [tableLeapSeconds, ha]
    rfl
  · rw [utcToTAI, getLeapSeconds_eq_table, tableLeapSeconds, ha]
    show d + a.2 * 1000 - d = a.2 * 1000
    ring

/-- Witness for C1 at 2016-06-01 (1464739200000 ms). -/
theorem utcToTAI_offset_eq_table_witness :
    (63072000000 : ℚ) ≤ 1464739200000 ∧
      ∃ c : ℚ, tableLeapSeconds 1464739200000 = some c ∧
        utcToTAI 1464739200000 - 1464739200000 = c * 1000 :=
  ⟨by norm_num, utcToTAI_offset_eq_table 1464739200000 (by norm_num)⟩

/-- **C3.** Whenever some `LEAP_SECONDS` entry has effective date `≤` the
input, `getLeapSeconds` returns the offset of the last such entry of the
sorted table; in particular at 2016-06-01 (1464739200000 ms) it returns 36,
from the 2015-07-01 entry. -/
theorem getLeapSeconds_last_entry :
    (∀ d : ℚ, LEAP_SECONDS.filter (fun e => e.1 ≤ d) ≠ [] →
      ∃ e, (LEAP_SECONDS.filter (fun e => e.1 ≤ d)).getLast? = some e ∧
        getLeapSeconds d = e.2) ∧
      getLeapSeconds 1464739200000 = 36 := by
  constructor
  · intro d hne
    obtain ⟨a, ha⟩ := Option.isSome_iff_exists.mp (List.getLast?_isSome.mpr hne)
    refine ⟨a, ha, ?_⟩
    rw [getLeapSeconds_eq_table, tableLeapSeconds, ha]
    rfl
  · decide

/-- Witness for C3 at 2016-06-01. -/
theorem getLeapSeconds_last_entry_witness :
    LEAP_SECONDS.filter (fun e => e.1 ≤ (1464739200000 : ℚ)) ≠ [] ∧
      ∃ e, (LEAP_SECONDS.filter (fun e => e.1 ≤ (1464739200000 : ℚ))).getLast? =
          some e ∧ getLeapSeconds 1464739200000 = e.2 :=
  ⟨by decide, getLeapSeconds_last_entry.1 1464739200000 (by decide)⟩

end Blackroad

deriving instance DecidableEq for Except

namespace Blackroad

/-! ## Round trips and scale conversions -/

/-- **C2** (counterexample).  The UTC→TAI→UTC round trip is not the identity
at every instant: at `d` = 1483228770000 ms (30 s before the 2017-01-01 leap
boundary) the TAI instant `utcToTAI d` lies past the boundary, so the reverse
conversion subtracts 37 s where 36 s were added, returning `d` minus one
second. -/
theorem tai_roundtrip_cex :
    convert (fun q => 0) (utcToTAI 1483228770000) TimeScale.TAI TimeScale.UTC ≠
      Except.ok (1483228770000 : ℚ) := by
  have h1 : utcToTAI 1483228770000 = 1483228806000 := by
    norm_num [utcToTAI, getLeapSeconds, leapScanGo, LEAP_SECONDS]
  have h2 : getLeapSeconds (1483228806000 : ℚ) = 37 := by
    norm_num [getLeapSeconds, leapScanGo, LEAP_SECONDS]
  rw [h1]
  simp only [convert]
  norm_num [h2]
  rw [if_neg (by decide : ¬ (TimeScale.TAI = TimeScale.UTC))]
  norm_num

/-- **C2** (amended).  For every UTC instant `d` at which the leap-second
count looked up at the TAI timestamp `utcToTAI d` agrees with the count at
`d` itself (all instants except those whose TAI counterpart crosses a table
boundary), converting `d` to TAI and back via `convert` with `fromScale` TAI
returns `d`. -/
theorem tai_roundtrip (sinq : ℚ → ℚ) (d : ℚ)
    (h : getLeapSeconds (utcToTAI d) = getLeapSeconds d) :
    convert sinq (utcToTAI d) TimeScale.TAI TimeScale.UTC = .ok d := by
  have hdef : convert sinq (utcToTAI d) TimeScale.TAI TimeScale.UTC =
      .ok (utcToTAI d - getLeapSeconds (utcToTAI d) * 1000) := by
    simp [convert]
  rw [hdef, h, utcToTAI]
  simp

/-- Witness for the amended C2 at `d = 0`. -/
theorem tai_roundtrip_witness :
    getLeapSeconds (utcToTAI 0) = getLeapSeconds 0 ∧
      convert (fun q => 0) (utcToTAI 0) TimeScale.TAI TimeScale.UTC = .ok 0 :=
  ⟨by norm_num [utcToTAI, getLeapSeconds, leapScanGo, LEAP_SECONDS],
   tai_roundtrip (fun q => 0) 0
     (by norm_num [utcToTAI, getLeapSeconds, leapScanGo, LEAP_SECONDS])⟩

/-- **C4.** For every UTC date `d`, `utcToTT d - utcToTAI d` is exactly
32.184 seconds, i.e. 32184 ms on the Date millisecond timeline. -/
theorem utcToTT_minus_utcToTAI (d : ℚ) :
    utcToTT d - utcToTAI d = 32184 := by
  rw [utcToTT]
  norm_num

/-- **C5.** For every timestamp `t` and every member `s` of `TIME_SCALES`
(including GPS), `convert t s s` returns `t` unchanged. -/
theorem convert_same_scale (sinq : ℚ → ℚ) (t : ℚ) (s : TimeScale) :
    convert sinq t s s = .ok t := by
  simp [convert]

/-- **C9** (code evaluated at the failing input).  `convert t UT1 UTC`
returns `t` unchanged for every `t`: the to-UTC step of `convert` handles
only TAI and TT sources, so a UT1 source is silently treated as UTC and the
documented forward relation UT1 = UTC + DUT1 (`utcToUT1`) is never inverted.
In particular the result differs from the value `t - DUT1` the specification
requires, since `DUT1 = -0.1234 s ≠ 0`. -/
theorem convert_ut1_to_utc_unchanged (sinq : ℚ → ℚ) (t : ℚ) :
    convert sinq t TimeScale.UT1 TimeScale.UTC = .ok t ∧
      (Except.ok t : Except String ℚ) ≠ Except.ok (t - EOP_dut1 * 1000) := by
  constructor
  · simp [convert]
  · simp only [ne_eq, Except.ok.injEq, EOP_dut1]
    intro hcontra
    norm_num at hcontra

/-- **C10.** For every timestamp `t` and every `fromScale` `s` other than
GPS, `convert t s GPS` throws `Unsupported time scale: GPS` (GPS is a
declared `TIME_SCALES` member but the target `switch` has no GPS arm); the
same-scale case `convert t GPS GPS` returns `t` unchanged. -/
theorem convert_to_gps (sinq : ℚ → ℚ) (t : ℚ) (s : TimeScale) :
    (s ≠ TimeScale.GPS →
      convert sinq t s TimeScale.GPS =
        .error ("Unsupported time scale: " ++ TimeScale.GPS.str)) ∧
      convert sinq t TimeScale.GPS TimeScale.GPS = .ok t := by
  refine ⟨fun hs => ?_, by simp [convert]⟩
  cases s with
  | GPS => exact absurd rfl hs
  | _ => simp [convert]

/-- Witness for C10 with a UTC source at `t = 0`. -/
theorem convert_to_gps_witness :
    convert (fun q => 0) 0 TimeScale.UTC TimeScale.GPS =
      .error ("Unsupported time scale: " ++ TimeScale.GPS.str) :=
  (convert_to_gps (fun q => 0) 0 TimeScale.UTC).1 (by decide)

/-! ## Contract construction and verification -/

/-- Whether a modelled call threw (`Except.error`). -/
def isThrown {α : Type} (r : Except String α) : Bool :=
  match r with
  | .error _ => true
  | .ok _ => false

/-- **C6** (counterexample).  With a recognized frame and time scale and the
present-but-empty datum string `""`, the claim requires the constructor to
throw (`""` is not a member of `HEIGHT_DATUMS`), but the JavaScript
`config.heightDatum || null` default treats the falsy empty string as absent
and construction succeeds. -/
theorem contract_empty_datum_cex :
    isThrown (TruthContract.make ⟨"ECEF", "UTC", some "", none⟩) = false ∧
      FRAMES.contains "ECEF" = true ∧
      TIME_SCALES.contains "UTC" = true ∧
      HEIGHT_DATUMS.contains "" = false := by
  decide

/-- **C6** (amended).  Constructing a `TruthContract` throws exactly when the
frame is not a member of `FRAMES`, or the time scale is not a member of
`TIME_SCALES`, or the datum string is present, non-empty (truthy), and not a
member of `HEIGHT_DATUMS`; with recognized values (datum absent or empty)
construction succeeds. -/
theorem contract_make_throws_iff (cfg : ContractConfig) :
    isThrown (TruthContract.make cfg) = true ↔
      (cfg.frame ∉ FRAMES ∨ cfg.timeScale ∉ TIME_SCALES ∨
       ∃ s, cfg.heightDatum = some s ∧ s ≠ "" ∧ s ∉ HEIGHT_DATUMS) := by
  rcases cfg with ⟨frame, timeScale, heightDatum, tolerance⟩
  by_cases hf : frame ∈ FRAMES
  · by_cases ht : timeScale ∈ TIME_SCALES
    · cases heightDatum with
      | none => simp [TruthContract.make, jsStringOrNull, hf, ht, isThrown]
      | some s =>
        by_cases hs : s = ""
        · subst hs
          simp [TruthContract.make, jsStringOrNull, hf, ht, isThrown]
        · by_cases hd : s ∈ HEIGHT_DATUMS
          · simp [TruthContract.make, jsStringOrNull, hf, ht, hs, hd, isThrown]
          · simp [TruthContract.make, jsStringOrNull, hf, ht, hs, hd, isThrown]
    · simp [TruthContract.make, jsStringOrNull, hf, ht, isThrown]
  · simp [TruthContract.make, jsStringOrNull, hf, isThrown]

/-- **C7.**  `ContractedVerifier.verify` throws exactly when no contract is
registered for `testId`; with a registered contract it never throws or
rejects on a frame or time-scale mismatch: it collects the corresponding
warnings and still returns the tolerance-comparison result
(`compareWithTolerance`). -/
theorem verify_contract_behaviour (contracts : List (String × TruthContract))
    (testId : String) (simulated reference : TaggedValue) :
    (contracts.lookup testId = none →
      ContractedVerifier.verify contracts testId simulated reference =
        .error ("No contract registered for test: " ++ testId)) ∧
    (∀ contract, contracts.lookup testId = some contract →
      ContractedVerifier.verify contracts testId simulated reference =
        .ok ⟨validateFrameCompatibility simulated.frame reference.frame testId ++
              (if simulated.timeScale ≠ reference.timeScale then
                ["Time scale mismatch: " ++ simulated.timeScale ++ " vs " ++
                  reference.timeScale]
               else []),
             compareWithTolerance simulated reference contract.tolerance⟩) := by
  constructor
  · intro hnone
    simp only [ContractedVerifier.verify, hnone]
  · intro contract hsome
    simp only [ContractedVerifier.verify, hsome]

/-- Witness for C7: one registered contract, mismatched frames (rotating ECEF
against inertial ECI) and mismatched time scales; `verify` returns both
warnings and the comparison result `true` instead of throwing. -/
theorem verify_contract_behaviour_witness :
    ContractedVerifier.verify [("orbit", ⟨"ECEF", "UTC", none, []⟩)] "orbit"
        ⟨"ECEF", "UTC"⟩ ⟨"ECI", "TT"⟩ =
      .ok ⟨["Frame mismatch: orbit between ECEF and ECI requires rotation",
            "Time scale mismatch: UTC vs TT"], true⟩ := by
  rw [(verify_contract_behaviour [("orbit", ⟨"ECEF", "UTC", none, []⟩)] "orbit"
      ⟨"ECEF", "UTC"⟩ ⟨"ECI", "TT"⟩).2 ⟨"ECEF", "UTC", none, []⟩ (by decide)]
  decide

/-! ## The ECEF → GCRF matrix chain -/

/-- Bottom row `(0, 0, 0, 1)`: the shape of every matrix the transform chain
builds, under which homogeneous application never rescales. -/
def Mat4.affineRow (m : Mat4) : Prop :=
  m.m30 = 0 ∧ m.m31 = 0 ∧ m.m32 = 0 ∧ m.m33 = 1

theorem Mat4.affineRow_mul {a b : Mat4} (ha : a.affineRow) (hb : b.affineRow) :
    (a.mul b).affineRow := by
  obtain ⟨ha0, ha1, ha2, ha3⟩ := ha
  obtain ⟨hb0, hb1, hb2, hb3⟩ := hb
  refine ⟨?_, ?_, ?_, ?_⟩ <;>
    simp [Mat4.mul, ha0, ha1, ha2, ha3, hb0, hb1, hb2, hb3]

theorem affineRow_idMat : Mat4.idMat.affineRow :=
  ⟨rfl, rfl, rfl, rfl⟩

theorem affineRow_makeRotationZ (sinq cosq : ℚ → ℚ) (theta : ℚ) :
    (makeRotationZ sinq cosq theta).affineRow :=
  ⟨rfl, rfl, rfl, rfl⟩

theorem affineRow_precessionMatrix (sinq cosq : ℚ → ℚ) (jdTT : ℚ) :
    (precessionMatrix sinq cosq jdTT).affineRow :=
  ⟨rfl, rfl, rfl, rfl⟩

theorem affineRow_nutationMatrix (sinq cosq : ℚ → ℚ) (jdTT : ℚ) :
    (nutationMatrix sinq cosq jdTT).affineRow :=
  ⟨rfl, rfl, rfl, rfl⟩

theorem affineRow_polarMotionMatrix (sinq cosq : ℚ → ℚ) (xp yp : ℚ) :
    (polarMotionMatrix sinq cosq xp yp).affineRow :=
  ⟨rfl, rfl, rfl, rfl⟩

theorem applyMatrix4_id (v : Vec3) : applyMatrix4 Mat4.idMat v = v := by
  rcases v with ⟨x, y, z⟩
  simp [applyMatrix4, Mat4.idMat]

/-- Homogeneous application turns matrix product into composition whenever
both bottom rows are `(0, 0, 0, 1)`. -/
theorem applyMatrix4_mul {a b : Mat4} (ha : a.affineRow) (hb : b.affineRow)
    (v : Vec3) :
    applyMatrix4 (a.mul b) v = applyMatrix4 a (applyMatrix4 b v) := by
  obtain ⟨ha0, ha1, ha2, ha3⟩ := ha
  obtain ⟨hb0, hb1, hb2, hb3⟩ := hb
  rcases v with ⟨x, y, z⟩
  simp only [applyMatrix4, Mat4.mul, ha0, ha1, ha2, ha3, hb0, hb1, hb2, hb3,
    zero_mul, zero_add, add_zero, one_mul, mul_one, Vec3.mk.injEq]
  norm_num
  refine ⟨by ring, by ring, by ring⟩

/-- **C8.** `IAUTransform.ecefToGCRF` equals applying to the input vector, in
order, the polar-motion matrix `W`, the Earth-rotation matrix `R` (rotation
about z by the Earth Rotation Angle at the UT1 instant derived from the
requested UTC instant), the precession matrix `P`, and the nutation matrix
`N` — the composite `N·P·R·W` — and is a pure function of the requested
instant and the EOP data (it has no other inputs). -/
theorem ecefToGCRF_matrix_chain (sinq cosq : ℚ → ℚ) (ecef : Vec3)
    (utcTime : ℚ) (eopData : EOPInput) :
    ecefToGCRF sinq cosq ecef utcTime eopData =
      applyMatrix4 (nutationMatrix sinq cosq (dateToJulianDate (utcToTT utcTime)))
        (applyMatrix4 (precessionMatrix sinq cosq (dateToJulianDate (utcToTT utcTime)))
          (applyMatrix4
            (makeRotationZ sinq cosq
              (earthRotationAngle (dateToJulianDate (utcToUT1 utcTime))))
            (applyMatrix4 (polarMotionMatrix sinq cosq eopData.xp eopData.yp)
              ecef))) := by
  have hW := affineRow_polarMotionMatrix sinq cosq eopData.xp eopData.yp
  have hR := affineRow_makeRotationZ sinq cosq
    (earthRotationAngle (dateToJulianDate (utcToUT1 utcTime)))
  have hP := affineRow_precessionMatrix sinq cosq (dateToJulianDate (utcToTT utcTime))
  have hN := affineRow_nutationMatrix sinq cosq (dateToJulianDate (utcToTT utcTime))
  simp only [ecefToGCRF]
  rw [applyMatrix4_mul
      (Mat4.affineRow_mul (Mat4.affineRow_mul (Mat4.affineRow_mul affineRow_idMat hN) hP) hR)
      hW,
    applyMatrix4_mul (Mat4.affineRow_mul (Mat4.affineRow_mul affineRow_idMat hN) hP) hR,
    applyMatrix4_mul (Mat4.affineRow_mul affineRow_idMat hN) hP,
    applyMatrix4_mul affineRow_idMat hN,
    applyMatrix4_id]

end Blackroad
